import Mathlib

/-!
Verification development for a minimal task-ingestion pipeline.

The repository has two runtime components:
* `HttpTrigger/__init__.py` — an HTTP endpoint `main(req)` that validates a
  JSON body, parses a connection string from the environment, and performs up
  to 3 persist attempts with linearly increasing backoff;
* `SqlTriggerBinding/__init__.py` — a change-feed consumer `main(changes)`
  that parses a JSON batch and logs each record.

The embedding below models Python values reaching these handlers as a `Json`
inductive, Python truthiness, `str()` rendering, `dict.get`, the two regex
based connection-string extractions, the retry loop (with an abstract per
attempt outcome standing for the database steps `connect` / `execute` /
`commit`), uncaught Python exceptions (`KeyError`, `AttributeError`,
`TypeError`) as an `Except` layer, and the observable trace of the run
(which attempts opened / closed a connection, which SQL text was executed
with which bound parameter, and the sequence of `time.sleep` delays).
-/

/-- A Python value as produced by `json.loads` / `req.get_json()`:
`None`, `bool`, numbers (modelled as `Int`; no claim depends on floats),
`str`, `list`, `dict`. -/
inductive Json where
  | null : Json
  | bool (b : Bool) : Json
  | num (n : Int) : Json
  | str (s : String) : Json
  | arr (xs : List Json) : Json
  | obj (kvs : List (String × Json)) : Json

/-- Python truthiness (`bool(x)`) on the values `json.loads` can produce:
`None`, `False`, `0`, `""`, `[]`, `{}` are falsy, everything else truthy. -/
def Json.truthy : Json → Bool
  | .null => false
  | .bool b => b
  | .num n => n != 0
  | .str s => s != ""
  | .arr xs => !xs.isEmpty
  | .obj kvs => !kvs.isEmpty

/-- `d.get(k)` on a parsed JSON object: the value under the key, or `None`
when absent.  (`json.loads` yields dicts with unique keys, so taking the
first binding is faithful.) -/
def dictGet (kvs : List (String × Json)) (k : String) : Json :=
  match kvs.find? (fun p => p.1 == k) with
  | some p => p.2
  | none => .null

/-- A single-quote character, used by Python `repr` of strings. -/
def pyQuote : String := String.mk [Char.ofNat 39]

mutual

/-- Python `repr()` of a parsed-JSON value (no escaping inside strings;
the payloads in the claims contain none). -/
def pyRepr : Json → String
  | .null => "None"
  | .bool true => "True"
  | .bool false => "False"
  | .num n => toString n
  | .str s => pyQuote ++ s ++ pyQuote
  | .arr xs => "[" ++ pyReprList xs ++ "]"
  | .obj kvs => "\x7b" ++ pyReprObj kvs ++ "\x7d"

/-- Comma-separated `repr`s of list elements. -/
def pyReprList : List Json → String
  | [] => ""
  | [x] => pyRepr x
  | x :: y :: rest => pyRepr x ++ ", " ++ pyReprList (y :: rest)

/-- Comma-separated `repr`s of dict entries. -/
def pyReprObj : List (String × Json) → String
  | [] => ""
  | [p] => pyQuote ++ p.1 ++ pyQuote ++ ": " ++ pyRepr p.2
  | p :: q :: rest => pyQuote ++ p.1 ++ pyQuote ++ ": " ++ pyRepr p.2 ++ ", " ++ pyReprObj (q :: rest)

end

/-- Python `str()` as used by f-string interpolation: strings render bare,
everything else as its `repr`. -/
def pyStr : Json → String
  | .str s => s
  | j => pyRepr j

/-- An uncaught Python exception escaping a handler. -/
inductive PyErr where
  | keyError (k : String) : PyErr
  | attributeError (m : String) : PyErr
  | typeError (m : String) : PyErr

/-- `str(e)` for the modelled exceptions. -/
def PyErr.msg : PyErr → String
  | .keyError k => pyQuote ++ k ++ pyQuote
  | .attributeError m => m
  | .typeError m => m

namespace HttpTrigger

/-- An HTTP response: status code and body. -/
structure Response where
  status : Nat
  body : String

/-- An incoming request, modelled by the outcome of `req.get_json()`:
`none` when the body does not parse as JSON (the call raises and the
handler catches it), `some j` when it parses to the Python value `j`. -/
structure Request where
  body : Option Json

/-- Connection fields extracted from the connection string. -/
structure ConnInfo where
  server : String
  port : Nat
  database : String
  user : String
  password : String

/-- `dropPrefixCh pat cs` strips `pat` from the front of `cs` if it is a
prefix, returning the remainder. -/
def dropPrefixCh : List Char → List Char → Option (List Char)
  | [], rest => some rest
  | _ :: _, [] => none
  | p :: ps, c :: cs => if p = c then dropPrefixCh ps cs else none

/-- `re.search(lit ++ "([^" ++ stop ++ "]+)", s)`: scan left to right for the
first position where the literal `pat` occurs followed by a nonempty run of
characters other than `stop`; return that run (the capture group).
Models the `Initial Catalog=([^;]+)`, `User ID=([^;]+)` and
`Password=([^;]+)` searches in `HttpTrigger/__init__.py`. -/
def findCapture (pat : List Char) (stop : Char) : List Char → Option (List Char)
  | [] => none
  | c :: cs =>
    match dropPrefixCh pat (c :: cs) with
    | some rem =>
      let cap := rem.takeWhile (fun x => x != stop)
      if cap.isEmpty then findCapture pat stop cs else some cap
    | none => findCapture pat stop cs

/-- `re.search(r'Server=tcp:([^,]+),(\d+)', s)`: first position where the
literal `Server=tcp:` occurs followed by a nonempty run of non-comma
characters, a comma, and a nonempty run of digits; returns the two capture
groups (host, digits). -/
def findServer : List Char → Option (List Char × List Char)
  | [] => none
  | c :: cs =>
    match dropPrefixCh "Server=tcp:".toList (c :: cs) with
    | some rem =>
      let host := rem.takeWhile (fun x => x != ',')
      if host.isEmpty then findServer cs
      else
        match rem.drop host.length with
        | ',' :: rem2 =>
          let digits := rem2.takeWhile Char.isDigit
          if digits.isEmpty then findServer cs else some (host, digits)
        | _ => findServer cs
    | none => findServer cs

/-- `int()` of a nonempty digit string. -/
def digitsToNat (ds : List Char) : Nat :=
  ds.foldl (fun a c => 10 * a + (c.toNat - 48)) 0

/-- The four regex extractions of `HttpTrigger/__init__.py` combined:
`some info` exactly when all four searches succeed (the code checks
`if not (server_match and db_match and user_match and pwd_match)`). -/
def parseConnStr (s : String) : Option ConnInfo :=
  let cs := s.toList
  match findServer cs, findCapture "Initial Catalog=".toList ';' cs,
        findCapture "User ID=".toList ';' cs, findCapture "Password=".toList ';' cs with
  | some hp, some db, some u, some pw =>
      some ⟨String.mk hp.1, digitsToNat hp.2, String.mk db, String.mk u, String.mk pw⟩
  | _, _, _, _ => none

/-- `max_retries = 3` in the source. -/
def max_retries : Nat := 3

/-- `retry_delay = 0.5` in the source (time units as rationals). -/
def retry_delay : ℚ := 1 / 2

/-- `timeout=10` passed to `pymssql.connect`. -/
def connect_timeout : Nat := 10

/-- `login_timeout=10` passed to `pymssql.connect`. -/
def login_timeout : Nat := 10

/-- The constant SQL text given to `cursor.execute`. -/
def insertSql : String := "INSERT INTO dbo.Tasks (Payload) VALUES (%s)"

/-- Which database step of one attempt raises, with `str(e)` of the raised
exception: `pymssql.connect`, `cursor.execute`, or `conn.commit`. -/
inductive StepFail where
  | connect (e : String) : StepFail
  | execute (e : String) : StepFail
  | commit (e : String) : StepFail

/-- The error message carried by a failing step. -/
def StepFail.msg : StepFail → String
  | .connect e => e
  | .execute e => e
  | .commit e => e

/-- Outcome of the `try` block of one attempt, abstracting the database:
either every step succeeds, or a specific step raises. -/
inductive AttemptBehavior where
  | success : AttemptBehavior
  | fail (f : StepFail) : AttemptBehavior

/-- Observable trace of one attempt: whether `pymssql.connect` returned a
connection, whether `conn.close()` was called, the `(sql, parameter)` pair
passed to `cursor.execute` (when reached), and the caught error message
(when the attempt failed). -/
structure AttemptTrace where
  opened : Bool
  closed : Bool
  executedSql : Option (String × Json)
  error : Option String

/-- The trace of one attempt of the `try` block on payload `task`:
on success the connection is opened, the insert executed and committed, and
the connection closed; when `connect` raises nothing was opened; when
`execute` or `commit` raises the source reaches the `except` branch with
the connection still open — no `close` on those paths. -/
def runAttempt (b : AttemptBehavior) (task : Json) : AttemptTrace :=
  match b with
  | .success => ⟨true, true, some (insertSql, task), none⟩
  | .fail (.connect e) => ⟨false, false, none, some e⟩
  | .fail (.execute e) => ⟨true, false, some (insertSql, task), some e⟩
  | .fail (.commit e) => ⟨true, false, some (insertSql, task), some e⟩

/-- The `for attempt in range(max_retries)` loop, iterating over the list of
attempt indices.  Returns the attempt traces, the `time.sleep` delays in
order, and the returned response (`none` would mean the loop fell through,
which cannot happen for a nonempty index list).  On success the loop
returns 200 immediately; on failure it sleeps `retry_delay * (attempt + 1)`
when `attempt < max_retries - 1`, else returns 503 carrying the last
error. -/
def runLoop (behavior : Nat → AttemptBehavior) (task : Json) :
    List Nat → List AttemptTrace × List ℚ × Option Response
  | [] => ([], [], none)
  | attempt :: rest =>
    match behavior attempt with
    | .success =>
      ([runAttempt .success task], [],
        some ⟨200, "Task added: " ++ pyStr task⟩)
    | .fail f =>
      if attempt < max_retries - 1 then
        let r := runLoop behavior task rest
        (runAttempt (.fail f) task :: r.1,
          retry_delay * ((attempt : ℚ) + 1) :: r.2.1, r.2.2)
      else
        ([runAttempt (.fail f) task], [],
          some ⟨503, "Database connection failed after " ++ toString max_retries
            ++ " attempts: " ++ f.msg⟩)

/-- Everything observable about one call of the endpoint: the outcome
(`.error e` = an uncaught Python exception, `.ok none` = the function
returned `None`, `.ok (some resp)` = an HTTP response), whether
`os.environ["SqlConnectionString"]` was accessed, the attempt traces and
the sleep delays. -/
structure MainResult where
  response : Except PyErr (Option Response)
  envRead : Bool
  attempts : List AttemptTrace
  sleeps : List ℚ

/-- `HttpTrigger.main`, shallowly embedded.  `env` is the value of the
`SqlConnectionString` environment variable (`none` when absent — the
subscript then raises `KeyError`), `behavior` gives the outcome of the
database steps of each attempt (by 0-based attempt index), `req` the
incoming request.  Mirrors the source line by line: parse body (400 on
failure), `req_body.get("task")` (an `AttributeError` escapes when the
parsed body is not a dict), truthiness check (400), environment read,
connection-string parse (500), then the retry loop. -/
def main (env : Option String) (behavior : Nat → AttemptBehavior)
    (req : Request) : MainResult :=
  match req.body with
  | none => ⟨.ok (some ⟨400, "Invalid JSON"⟩), false, [], []⟩
  | some body =>
    match body with
    | .obj kvs =>
      let task_text := dictGet kvs "task"
      if task_text.truthy then
        match env with
        | none => ⟨.error (.keyError "SqlConnectionString"), true, [], []⟩
        | some conn_str =>
          match parseConnStr conn_str with
          | none => ⟨.ok (some ⟨500, "Invalid connection string format"⟩), true, [], []⟩
          | some _ =>
            let r := runLoop behavior task_text (List.range max_retries)
            ⟨.ok r.2.2, true, r.1, r.2.1⟩
      else ⟨.ok (some ⟨400, "Missing " ++ pyQuote ++ "task" ++ pyQuote⟩), false, [], []⟩
    | _ =>
      ⟨.error (.attributeError "object has no attribute get"), false, [], []⟩

end HttpTrigger

namespace SqlTriggerBinding

/-- One emitted log line: `logging.info` or `logging.error`. -/
inductive LogEntry where
  | info (s : String) : LogEntry
  | error (s : String) : LogEntry

/-- Whether a value is a Python dict. -/
def Json.isObj : Json → Bool
  | .obj _ => true
  | _ => false

/-- The log line produced for one change record (a dict): missing keys read
as `None` via `dict.get`. -/
def recordMsg (kvs : List (String × Json)) : String :=
  "SQL Trigger fired: Id=" ++ pyStr (dictGet kvs "Id")
    ++ ", Payload=" ++ pyStr (dictGet kvs "Payload")
    ++ ", Processed=" ++ pyStr (dictGet kvs "Processed")

/-- Python iteration `for item in x` over the values `json.loads` returns:
lists yield their elements, dicts their keys (as strings), strings their
characters (as one-character strings); numbers and booleans are not
iterable and raise `TypeError`.  (`None`/falsy values never reach the loop
in the source.) -/
def pyIter : Json → Except PyErr (List Json)
  | .arr xs => .ok xs
  | .obj kvs => .ok (kvs.map (fun p => .str p.1))
  | .str s => .ok (s.toList.map (fun c => .str (String.mk [c])))
  | .num _ => .error (.typeError "object is not iterable")
  | .bool _ => .error (.typeError "object is not iterable")
  | .null => .error (.typeError "object is not iterable")

/-- The body of the `for item in changes_list` loop: each dict item logs one
line; a non-dict item raises `AttributeError` at `item.get`, aborting the
loop with the lines logged so far. -/
def logItems : List Json → List LogEntry × Option PyErr
  | [] => ([], none)
  | item :: rest =>
    match item with
    | .obj kvs =>
      let r := logItems rest
      (.info (recordMsg kvs) :: r.1, r.2)
    | _ => ([], some (.attributeError "object has no attribute get"))

/-- The two `logging.error` lines of the `except` branch. -/
def catchLogs (e : String) (changes : String) : List LogEntry :=
  [.error ("Error parsing SQL trigger input: " ++ e),
   .error ("Raw content: " ++ changes)]

/-- `SqlTriggerBinding.main`, shallowly embedded.  `parse` models
`json.loads` (raising = `.error`), `changes` is the raw input string.
Returns the full log: the initial info line, then either the per-record
lines, the no-changes line, or — when parsing, iteration, or `item.get`
raises — the lines logged so far followed by the two `except`-branch error
lines.  The handler is total: every exception of the `try` block is caught,
so it returns a log list for every input. -/
def main (parse : String → Except String Json) (changes : String) : List LogEntry :=
  LogEntry.info "SQL Trigger fired." ::
    match parse changes with
    | .error e => catchLogs e changes
    | .ok j =>
      if j.truthy then
        match pyIter j with
        | .error e => catchLogs e.msg changes
        | .ok items =>
          match logItems items with
          | (ls, none) => ls
          | (ls, some e) => ls ++ catchLogs e.msg changes
      else [.info "SQL Trigger fired but no changes detected."]

end SqlTriggerBinding

namespace HttpTrigger

/-- A well-formed connection string, used as a concrete fixture. -/
def csA : String :=
  "Server=tcp:myhost,1433;Initial Catalog=mydb;User ID=admin;Password=pw;"

/-- `List.range max_retries` is the concrete index list `[0, 1, 2]`. -/
theorem range_max_retries : List.range max_retries = [0, 1, 2] := rfl

/-- C1: for every valid request (JSON-object body with truthy `task`, a
parsable connection string) whose persist attempts all fail, `main` makes
exactly 3 attempts (never a fourth) and returns 503 with body
`"Database connection failed after 3 attempts: "` followed by the error of
the third attempt. -/
theorem submit_exhausted_returns_503
    (env_cs : String) (info : ConnInfo) (kvs : List (String × Json))
    (behavior : Nat → AttemptBehavior) (f0 f1 f2 : StepFail)
    (hcs : parseConnStr env_cs = some info)
    (htask : (dictGet kvs "task").truthy = true)
    (h0 : behavior 0 = .fail f0) (h1 : behavior 1 = .fail f1)
    (h2 : behavior 2 = .fail f2) :
    (main (some env_cs) behavior ⟨some (.obj kvs)⟩).attempts.length = 3 ∧
    (main (some env_cs) behavior ⟨some (.obj kvs)⟩).response =
      .ok (some ⟨503, "Database connection failed after 3 attempts: " ++ f2.msg⟩) := by
  simp +decide [main, htask, hcs, range_max_retries, runLoop, h0, h1, h2, runAttempt]
  rfl

/-- Witness for C1 at a concrete all-failing adapter. -/
theorem submit_exhausted_returns_503_witness :
    (main (some csA) (fun _ => .fail (.connect "boom"))
      ⟨some (.obj [("task", .str "hi")])⟩).attempts.length = 3 ∧
    (main (some csA) (fun _ => .fail (.connect "boom"))
      ⟨some (.obj [("task", .str "hi")])⟩).response =
      .ok (some ⟨503, "Database connection failed after 3 attempts: " ++
        StepFail.msg (.connect "boom")⟩) :=
  submit_exhausted_returns_503 csA ⟨"myhost", 1433, "mydb", "admin", "pw"⟩
    [("task", .str "hi")] (fun _ => .fail (.connect "boom"))
    (.connect "boom") (.connect "boom") (.connect "boom")
    (by rfl) (by rfl) rfl rfl rfl

/-- C2: on every valid request the sequence of `time.sleep` delays is
exactly one sleep of `0.5 * i` time units after each failed attempt `i`
(1-based) that is not the last attempt made — so delays `0.5` then `1.0`,
one fewer sleep than attempts, and no sleep after the final attempt or
after a successful attempt. -/
theorem submit_backoff_delays
    (env_cs : String) (info : ConnInfo) (kvs : List (String × Json))
    (behavior : Nat → AttemptBehavior)
    (hcs : parseConnStr env_cs = some info)
    (htask : (dictGet kvs "task").truthy = true) :
    (main (some env_cs) behavior ⟨some (.obj kvs)⟩).sleeps =
      (List.range ((main (some env_cs) behavior ⟨some (.obj kvs)⟩).attempts.length - 1)).map
        (fun i => (1 / 2 : ℚ) * ((i : ℚ) + 1)) := by
  cases h0 : behavior 0 <;> cases h1 : behavior 1 <;> cases h2 : behavior 2 <;>
    simp +decide [main, htask, hcs, range_max_retries, runLoop, h0, h1, h2, runAttempt,
      retry_delay, List.range_succ]

/-- Witness for C2 with an adapter failing on attempts 1 and 2 and
succeeding on attempt 3: the delays are `[0.5, 1.0]`. -/
theorem submit_backoff_delays_witness :
    (main (some csA) (fun i => if i < 2 then .fail (.connect "boom") else .success)
      ⟨some (.obj [("task", .str "hi")])⟩).sleeps =
      (List.range ((main (some csA) (fun i => if i < 2 then .fail (.connect "boom") else .success)
        ⟨some (.obj [("task", .str "hi")])⟩).attempts.length - 1)).map
        (fun i => (1 / 2 : ℚ) * ((i : ℚ) + 1)) :=
  submit_backoff_delays csA ⟨"myhost", 1433, "mydb", "admin", "pw"⟩
    [("task", .str "hi")] (fun i => if i < 2 then .fail (.connect "boom") else .success)
    (by rfl) (by rfl)

/-- C3 evidence (the code violates the claim): with an adapter whose
`connect` succeeds but whose `execute` raises on every attempt, every one
of the three attempts acquires a connection (`opened = true`) and none of
them ever calls `conn.close()` (`closed = false`) — the source closes the
connection only on the success path, so the error exits leak it. -/
theorem connection_leak_on_execute_failure :
    ((main (some csA) (fun _ => .fail (.execute "boom"))
      ⟨some (.obj [("task", .str "hi")])⟩).attempts.map
        (fun a => (a.opened, a.closed))) =
      [(true, false), (true, false), (true, false)] := by
  rfl

/-- C4: for every valid request whose persist succeeds on attempt `k + 1`
(1-based; `k < 3` the 0-based index) after the earlier attempts failed,
`main` stops after exactly `k + 1` attempts and returns 200 with body
`"Task added: "` followed by the submitted payload. -/
theorem submit_success_returns_200
    (env_cs : String) (info : ConnInfo) (kvs : List (String × Json))
    (behavior : Nat → AttemptBehavior) (k : Nat)
    (hcs : parseConnStr env_cs = some info)
    (htask : (dictGet kvs "task").truthy = true)
    (hk : k < 3) (hsucc : behavior k = .success)
    (hfail : ∀ i, i < k → ∃ f, behavior i = .fail f) :
    (main (some env_cs) behavior ⟨some (.obj kvs)⟩).attempts.length = k + 1 ∧
    (main (some env_cs) behavior ⟨some (.obj kvs)⟩).response =
      .ok (some ⟨200, "Task added: " ++ pyStr (dictGet kvs "task")⟩) := by
  interval_cases k
  · simp +decide [main, htask, hcs, range_max_retries, runLoop, hsucc, runAttempt]
  · obtain ⟨f0, h0⟩ := hfail 0 (by norm_num)
    simp +decide [main, htask, hcs, range_max_retries, runLoop, h0, hsucc, runAttempt]
  · obtain ⟨f0, h0⟩ := hfail 0 (by norm_num)
    obtain ⟨f1, h1⟩ := hfail 1 (by norm_num)
    simp +decide [main, htask, hcs, range_max_retries, runLoop, h0, h1, hsucc, runAttempt]

/-- Witness for C4 at success on the third attempt. -/
theorem submit_success_returns_200_witness :
    (main (some csA) (fun i => if i < 2 then .fail (.connect "boom") else .success)
      ⟨some (.obj [("task", .str "hi")])⟩).attempts.length = 2 + 1 ∧
    (main (some csA) (fun i => if i < 2 then .fail (.connect "boom") else .success)
      ⟨some (.obj [("task", .str "hi")])⟩).response =
      .ok (some ⟨200, "Task added: " ++ pyStr (dictGet [("task", .str "hi")] "task")⟩) :=
  submit_success_returns_200 csA ⟨"myhost", 1433, "mydb", "admin", "pw"⟩
    [("task", .str "hi")] (fun i => if i < 2 then .fail (.connect "boom") else .success)
    2 (by rfl) (by rfl) (by norm_num) (by rfl)
    (fun i hi => ⟨.connect "boom", by interval_cases i <;> rfl⟩)

/-- C5 counterexample: a body that parses as JSON but is not an object
(here the array `[]`) has no `task` field, yet `main` does not return 400
`"Missing 'task'"`: `req_body.get("task")` raises an uncaught
`AttributeError` (a Python list has no `.get`). -/
theorem nonobject_body_not_bad_request :
    (main (some csA) (fun _ => .success) ⟨some (.arr [])⟩).response =
      .error (.attributeError "object has no attribute get") ∧
    (main (some csA) (fun _ => .success) ⟨some (.arr [])⟩).response ≠
      .ok (some ⟨400, "Missing " ++ pyQuote ++ "task" ++ pyQuote⟩) := by
  refine ⟨rfl, fun h => ?_⟩
  rw [show (main (some csA) (fun _ => .success) ⟨some (.arr [])⟩).response =
    .error (.attributeError "object has no attribute get") from rfl] at h
  exact Except.noConfusion h

/-- C5 (amended): a body that does not parse as JSON yields 400
`"Invalid JSON"` with no persistence attempt and no environment read, and a
body that parses as a JSON *object* whose `task` value is missing or falsy
yields 400 `"Missing 'task'"` with no persistence attempt and no
environment read.  (Non-object JSON bodies instead escape with an uncaught
`AttributeError`.) -/
theorem bad_request_validation
    (env : Option String) (behavior : Nat → AttemptBehavior) :
    (∀ req : Request, req.body = none →
      main env behavior req = ⟨.ok (some ⟨400, "Invalid JSON"⟩), false, [], []⟩) ∧
    (∀ kvs : List (String × Json), (dictGet kvs "task").truthy = false →
      main env behavior ⟨some (.obj kvs)⟩ =
        ⟨.ok (some ⟨400, "Missing " ++ pyQuote ++ "task" ++ pyQuote⟩), false, [], []⟩) := by
  constructor
  · rintro ⟨body⟩ h
    cases h
    rfl
  · intro kvs h
    simp [main, h]

/-- Witness for C5's amended theorem at a non-JSON body and at an object
body with no `task` key. -/
theorem bad_request_validation_witness :
    main none (fun _ => .success) ⟨none⟩ =
      ⟨.ok (some ⟨400, "Invalid JSON"⟩), false, [], []⟩ ∧
    main none (fun _ => .success) ⟨some (.obj [])⟩ =
      ⟨.ok (some ⟨400, "Missing " ++ pyQuote ++ "task" ++ pyQuote⟩), false, [], []⟩ :=
  ⟨(bad_request_validation none (fun _ => .success)).1 ⟨none⟩ rfl,
   (bad_request_validation none (fun _ => .success)).2 [] rfl⟩

/-- C6: on a valid request, if any of the four regex extractions on the
configured connection string fails, `main` returns 500
`"Invalid connection string format"` immediately: zero persistence
attempts, zero sleeps — this failure is not retried. -/
theorem config_error_returns_500
    (env_cs : String) (kvs : List (String × Json))
    (behavior : Nat → AttemptBehavior)
    (hcs : parseConnStr env_cs = none)
    (htask : (dictGet kvs "task").truthy = true) :
    main (some env_cs) behavior ⟨some (.obj kvs)⟩ =
      ⟨.ok (some ⟨500, "Invalid connection string format"⟩), true, [], []⟩ := by
  simp [main, htask, hcs]

/-- Witness for C6 at a connection string missing the `User ID` field. -/
theorem config_error_returns_500_witness :
    main (some "Server=tcp:myhost,1433;Initial Catalog=mydb;Password=pw;")
      (fun _ => .success) ⟨some (.obj [("task", .str "hi")])⟩ =
      ⟨.ok (some ⟨500, "Invalid connection string format"⟩), true, [], []⟩ :=
  config_error_returns_500 "Server=tcp:myhost,1433;Initial Catalog=mydb;Password=pw;"
    [("task", .str "hi")] (fun _ => .success) (by rfl) (by rfl)

/-- C7: the SQL text handed to `cursor.execute` by the persist loop is the
one constant parameterized INSERT statement, with the payload only as the
bound parameter: two runs with the same adapter behavior but different
payloads execute identical SQL text, and every executed statement is
exactly `(insertSql, payload)`. -/
theorem persist_sql_constant
    (behavior : Nat → AttemptBehavior) (t1 t2 : Json) (idxs : List Nat) :
    ((runLoop behavior t1 idxs).1.map (fun a => a.executedSql.map Prod.fst)) =
      ((runLoop behavior t2 idxs).1.map (fun a => a.executedSql.map Prod.fst)) ∧
    ((runLoop behavior t1 idxs).1.map (fun a => a.executedSql)) =
      ((runLoop behavior t1 idxs).1.map
        (fun a => a.executedSql.map (fun _ => (insertSql, t1)))) := by
  induction idxs with
  | nil => simp [runLoop]
  | cons a rest ih =>
    cases hb : behavior a with
    | success => simp [runLoop, hb, runAttempt]
    | fail f =>
      by_cases ha : a < max_retries - 1
      · cases f <;>
          simpa [runLoop, hb, ha, runAttempt] using ih
      · cases f <;>
          simp [runLoop, hb, ha, runAttempt]

/-- C9: when the `SqlConnectionString` environment variable is entirely
absent, a valid request makes the subscript `os.environ[...]` raise an
uncaught `KeyError`: `main` returns no HTTP response at all (in particular
not the 500 `"Invalid connection string format"` one) and makes zero
persistence attempts. -/
theorem missing_env_raises_keyerror
    (behavior : Nat → AttemptBehavior) (kvs : List (String × Json))
    (htask : (dictGet kvs "task").truthy = true) :
    main none behavior ⟨some (.obj kvs)⟩ =
      ⟨.error (.keyError "SqlConnectionString"), true, [], []⟩ := by
  simp [main, htask]

/-- Witness for C9 at a concrete valid request. -/
theorem missing_env_raises_keyerror_witness :
    main none (fun _ => .success) ⟨some (.obj [("task", .str "hi")])⟩ =
      ⟨.error (.keyError "SqlConnectionString"), true, [], []⟩ :=
  missing_env_raises_keyerror (fun _ => .success) [("task", .str "hi")] (by rfl)

/-- C10: the validation of the parsed body is Python truthiness of the
`task` value: every falsy `task` (absent → `None`, `null`, `""`, `0`,
`false`, `[]`, `{}`) yields 400 `"Missing 'task'"`, while every truthy
`task` — string or not — proceeds to persist, with the `task` value itself
as the bound parameter of the insert. -/
theorem task_validation_is_truthiness
    (env_cs : String) (info : ConnInfo) (kvs : List (String × Json))
    (behavior : Nat → AttemptBehavior)
    (hcs : parseConnStr env_cs = some info) :
    ((dictGet kvs "task").truthy = false →
      main (some env_cs) behavior ⟨some (.obj kvs)⟩ =
        ⟨.ok (some ⟨400, "Missing " ++ pyQuote ++ "task" ++ pyQuote⟩), false, [], []⟩) ∧
    ((dictGet kvs "task").truthy = true → behavior 0 = .success →
      main (some env_cs) behavior ⟨some (.obj kvs)⟩ =
        ⟨.ok (some ⟨200, "Task added: " ++ pyStr (dictGet kvs "task")⟩), true,
          [⟨true, true, some (insertSql, dictGet kvs "task"), none⟩], []⟩) := by
  constructor
  · intro h
    simp [main, h]
  · intro h hb
    simp [main, h, hcs, range_max_retries, runLoop, hb, runAttempt]

/-- Witness for C10: the falsy non-string value `[]` is rejected as
missing, and the truthy non-string value `5` is persisted, echoed as
`"Task added: 5"`. -/
theorem task_validation_is_truthiness_witness :
    main (some csA) (fun _ => .success) ⟨some (.obj [("task", .arr [])])⟩ =
      ⟨.ok (some ⟨400, "Missing " ++ pyQuote ++ "task" ++ pyQuote⟩), false, [], []⟩ ∧
    main (some csA) (fun _ => .success) ⟨some (.obj [("task", .num 5)])⟩ =
      ⟨.ok (some ⟨200, "Task added: " ++ pyStr (dictGet [("task", .num 5)] "task")⟩), true,
        [⟨true, true, some (insertSql, dictGet [("task", .num 5)] "task"), none⟩], []⟩ :=
  ⟨(task_validation_is_truthiness csA ⟨"myhost", 1433, "mydb", "admin", "pw"⟩
      [("task", .arr [])] (fun _ => .success) (by rfl)).1 (by rfl),
   (task_validation_is_truthiness csA ⟨"myhost", 1433, "mydb", "admin", "pw"⟩
      [("task", .num 5)] (fun _ => .success) (by rfl)).2 (by rfl) rfl⟩

end HttpTrigger

namespace SqlTriggerBinding

/-- A well-formed change batch: a JSON array all of whose records are
objects. -/
def goodBatch : Json → Bool
  | .arr items => items.all Json.isObj
  | _ => false

/-- Iterating a batch of object records logs one line per record and raises
nothing. -/
theorem logItems_all_obj (recs : List (List (String × Json))) :
    logItems (recs.map Json.obj) =
      (recs.map (fun kvs => LogEntry.info (recordMsg kvs)), none) := by
  induction recs with
  | nil => rfl
  | cons r rest ih => simp [logItems, ih]

/-- Iterating a batch containing a non-object record raises. -/
theorem logItems_not_all_obj (items : List Json)
    (h : items.all Json.isObj = false) : ((logItems items).2).isSome = true := by
  induction items with
  | nil => simp at h
  | cons it rest ih =>
    cases it with
    | obj kvs =>
      simp only [List.all_cons, Json.isObj, Bool.true_and] at h
      simpa [logItems] using ih h
    | null => simp [logItems]
    | bool b => simp [logItems]
    | num n => simp [logItems]
    | str s => simp [logItems]
    | arr xs => simp [logItems]

/-- The last line of the `except` branch is the raw-content log. -/
theorem getLast_catchLogs (x : LogEntry) (pre : List LogEntry) (e changes : String) :
    (x :: (pre ++ catchLogs e changes)).getLast? =
      some (.error ("Raw content: " ++ changes)) := by
  have h : x :: (pre ++ catchLogs e changes) =
      ((x :: pre) ++ [.error ("Error parsing SQL trigger input: " ++ e)]) ++
        [LogEntry.error ("Raw content: " ++ changes)] := by
    simp [catchLogs]
  rw [h, List.getLast?_concat]

/-- C8: the change consumer returns a log for every input (it is a total
function: every exception of its `try` block is caught).  A parsable
nonempty array of object records yields exactly one log line per record; a
parsable empty array yields only the no-changes line; an unparsable input
yields the two `except`-branch lines; and any other parsable but malformed
truthy input (not an array of objects) ends with the raw content logged. -/
theorem change_consumer_total_and_logged
    (parse : String → Except String Json) (changes : String) :
    (∀ e, parse changes = .error e →
      main parse changes = .info "SQL Trigger fired." :: catchLogs e changes) ∧
    (parse changes = .ok (.arr []) →
      main parse changes =
        [.info "SQL Trigger fired.", .info "SQL Trigger fired but no changes detected."]) ∧
    (∀ recs : List (List (String × Json)), recs ≠ [] →
      parse changes = .ok (.arr (recs.map Json.obj)) →
      main parse changes =
        .info "SQL Trigger fired." :: recs.map (fun kvs => LogEntry.info (recordMsg kvs))) ∧
    (∀ j, parse changes = .ok j → Json.truthy j = true → goodBatch j = false →
      (main parse changes).getLast? =
        some (.error ("Raw content: " ++ changes))) := by
  refine ⟨?_, ?_, ?_, ?_⟩
  · intro e hp
    simp [main, hp]
  · intro hp
    simp [main, hp, Json.truthy]
  · intro recs hne hp
    simp [main, hp, Json.truthy, pyIter, logItems_all_obj, hne]
  · intro j hp ht hbad
    cases j with
    | null => simp [Json.truthy] at ht
    | bool b =>
      cases b
      · simp [Json.truthy] at ht
      · simpa [main, hp, ht, pyIter] using
          getLast_catchLogs (.info "SQL Trigger fired.") [] _ changes
    | num n =>
      simpa [main, hp, ht, pyIter] using
        getLast_catchLogs (.info "SQL Trigger fired.") [] _ changes
    | str s =>
      obtain ⟨l⟩ := s
      cases l with
      | nil => simp [Json.truthy] at ht
      | cons c cs =>
        simpa [main, hp, ht, pyIter, logItems] using
          getLast_catchLogs (.info "SQL Trigger fired.") [] _ changes
    | arr items =>
      have hno : items.all Json.isObj = false := by simpa [goodBatch] using hbad
      obtain ⟨e, he⟩ := Option.isSome_iff_exists.mp (logItems_not_all_obj items hno)
      rcases hli : logItems items with ⟨ls, err⟩
      rw [hli] at he
      subst he
      have h := getLast_catchLogs (LogEntry.info "SQL Trigger fired.") ls (PyErr.msg e) changes
      simpa [main, hp, ht, pyIter, hli] using h
    | obj kvs =>
      cases kvs with
      | nil => simp [Json.truthy] at ht
      | cons p rest =>
        simpa [main, hp, ht, pyIter, logItems] using
          getLast_catchLogs (.info "SQL Trigger fired.") [] _ changes

/-- Witness for C8 at a concrete parse outcome for each of the four
cases. -/
theorem change_consumer_total_and_logged_witness :
    (main (fun _ => .error "bad") "raw" =
      .info "SQL Trigger fired." :: catchLogs "bad" "raw") ∧
    (main (fun _ => .ok (.arr [])) "raw" =
      [.info "SQL Trigger fired.", .info "SQL Trigger fired but no changes detected."]) ∧
    (main (fun _ => .ok (.arr [.obj [("Id", .num 1)]])) "raw" =
      .info "SQL Trigger fired." ::
        [[("Id", Json.num 1)]].map (fun kvs => LogEntry.info (recordMsg kvs))) ∧
    ((main (fun _ => .ok (.num 7)) "raw").getLast? =
      some (.error ("Raw content: " ++ "raw"))) :=
  ⟨(change_consumer_total_and_logged (fun _ => .error "bad") "raw").1 "bad" rfl,
   (change_consumer_total_and_logged (fun _ => .ok (.arr [])) "raw").2.1 rfl,
   (change_consumer_total_and_logged (fun _ => .ok (.arr [.obj [("Id", .num 1)]])) "raw").2.2.1
     [[("Id", .num 1)]] (by simp) rfl,
   (change_consumer_total_and_logged (fun _ => .ok (.num 7)) "raw").2.2.2
     (.num 7) rfl rfl rfl⟩

end SqlTriggerBinding
